import Mathlib

/-!
Shallow embedding of the table-configuration validator of delta-kernel-rs
(src/kernel/src/table_configuration.rs) together with spec-level models of
its external collaborators (Protocol, Metadata, Schema Resolver, Table
Properties View, Column-Mapping Resolver, Structural Validators and the
Feature Registry), which are consumed by this module but whose code is not
part of the reviewed sources.
-/

/-- A table version number (Rust `Version = u64`; no arithmetic is performed
on versions here, so `Nat` is a faithful model). -/
abbrev Version := Nat

/-- A reader/writer feature identifier as declared in a protocol action.
Feature identifiers are free-form strings; the Feature Registry decides
which of them the kernel recognizes. -/
abbrev FeatureId := String

/-- Error type. Mirrors the error constructors actually used by this module:
`Error::unsupported`, `Error::generic`, and the schema-parse failure coming
from the Schema Resolver. -/
inductive Error where
| generic (msg : String)
| unsupported (msg : String)
| schemaParse (msg : String)
deriving DecidableEq, Repr

/-- The known reader-feature identifiers used by this module, with their
serialized protocol strings. -/
def ReaderFeature.deletionVectors : FeatureId := "deletionVectors"

/-- Reader feature identifier for column mapping. -/
def ReaderFeature.columnMapping : FeatureId := "columnMapping"

/-- Reader feature identifier for timestamp without timezone. -/
def ReaderFeature.timestampNtz : FeatureId := "timestampNtz"

/-- Reader feature identifier for v2 checkpoints. -/
def ReaderFeature.v2Checkpoint : FeatureId := "v2Checkpoint"

/-- Reader feature identifier for the variant type. -/
def ReaderFeature.variantType : FeatureId := "variantType"

/-- Writer feature identifier for deletion vectors. -/
def WriterFeature.deletionVectors : FeatureId := "deletionVectors"

/-- Writer feature identifier for append-only tables. -/
def WriterFeature.appendOnly : FeatureId := "appendOnly"

/-- Writer feature identifier for column invariants. -/
def WriterFeature.invariants : FeatureId := "invariants"

/-- Writer feature identifier for in-commit timestamps. -/
def WriterFeature.inCommitTimestamp : FeatureId := "inCommitTimestamp"

/-- Writer feature identifier for v2 checkpoints. -/
def WriterFeature.v2Checkpoint : FeatureId := "v2Checkpoint"

/-- Writer feature identifier for timestamp without timezone. -/
def WriterFeature.timestampNtz : FeatureId := "timestampNtz"

/-- Writer feature identifier for the variant type. -/
def WriterFeature.variantType : FeatureId := "variantType"

/-- Modelled from the spec: the Protocol action (data model of section 3 of the
spec). The code defining the `Protocol` struct is external to the reviewed
module; it carries the minimum reader and writer versions and the optional
reader/writer feature-identifier lists. The in-module tests construct
protocols with arbitrary (including unrecognized) feature strings, so no
well-formedness is baked into the type. -/
structure Protocol where
  min_reader_version : Nat
  min_writer_version : Nat
  reader_features : Option (List FeatureId)
  writer_features : Option (List FeatureId)
deriving DecidableEq, Repr

/-- Modelled from the spec: membership test of a feature identifier in the
protocol's optional reader-feature list (absent list means no features). -/
def Protocol.has_reader_feature (p : Protocol) (f : FeatureId) : Bool :=
  match p.reader_features with
  | some fs => fs.contains f
  | none => false

/-- Modelled from the spec: membership test of a feature identifier in the
protocol's optional writer-feature list (absent list means no features). -/
def Protocol.has_writer_feature (p : Protocol) (f : FeatureId) : Bool :=
  match p.writer_features with
  | some fs => fs.contains f
  | none => false

/-- The column-mapping mode enumeration: none, by field id, or by name. -/
inductive ColumnMappingMode where
| none
| id
| name
deriving DecidableEq, Repr

/-- A primitive logical type of a schema field; only the types this module's
validators inspect are distinguished, every other type is carried opaquely. -/
inductive PrimitiveType where
| integer
| string
| timestampNtz
| variant
| other (tag : String)
deriving DecidableEq, Repr

/-- Modelled from the spec: a schema field (section 3): a name, a logical
type, nullability, and field-level metadata consisting of column-mapping
annotations and an optional invariant expression. -/
structure SchemaField where
  name : String
  type : PrimitiveType
  nullable : Bool
  column_mapping_annotated : Bool
  invariant : Option String
deriving DecidableEq, Repr

/-- Modelled from the spec: a schema is a struct of typed fields. -/
structure SchemaType where
  fields : List SchemaField
deriving DecidableEq, Repr

/-- Modelled from the spec: the serialized schema form held by Metadata. The
Schema Resolver is external; a serialized schema either encodes a schema or
is malformed (section 6: parse_schema fails if malformed). -/
inductive SchemaString where
| wellFormed (schema : SchemaType)
| malformed (raw : String)
deriving DecidableEq, Repr

/-- Modelled from the spec: the Metadata action (section 3): unique id,
serialized schema string, partition columns, free-form string-to-string
configuration map, creation timestamp. -/
structure Metadata where
  id : String
  schema_string : SchemaString
  partition_columns : List String
  configuration : List (String × String)
  created_time : Option Int
deriving DecidableEq, Repr

/-- Modelled from the spec: the Schema Resolver (section 6):
parse_schema(schema_string) returns the schema, or fails if the string is
not a valid serialized schema. -/
def Metadata.parse_schema (m : Metadata) : Except Error SchemaType :=
  match m.schema_string with
  | .wellFormed schema => .ok schema
  | .malformed raw => .error (.schemaParse ("malformed schema string: " ++ raw))

/-- Modelled from the spec: the typed Table Properties view (section 3),
restricted to the fields this module consults. -/
structure TableProperties where
  enable_change_data_feed : Option Bool
  enable_deletion_vectors : Option Bool
  append_only : Option Bool
  enable_in_commit_timestamps : Option Bool
  in_commit_timestamp_enablement_version : Option Version
  in_commit_timestamp_enablement_timestamp : Option Int
  column_mapping_mode : Option ColumnMappingMode
deriving DecidableEq, Repr

/-- Modelled from the spec: parse a boolean property value; malformed
entries default to absent. -/
def parse_bool_prop : String → Option Bool
  | "true" => some true
  | "false" => some false
  | _ => none

/-- Modelled from the spec: parse a column-mapping-mode property value;
malformed entries default to absent. -/
def parse_column_mapping_mode_prop : String → Option ColumnMappingMode
  | "none" => some ColumnMappingMode.none
  | "id" => some ColumnMappingMode.id
  | "name" => some ColumnMappingMode.name
  | _ => none

/-- Modelled from the spec: the numeric value of a decimal digit
character. -/
def digit_val (c : Char) : Option Nat :=
  if '0' ≤ c ∧ c ≤ '9' then some (c.toNat - Char.toNat '0') else none

/-- Modelled from the spec: accumulate decimal digits into a number. -/
def parse_digits_acc : List Char → Nat → Option Nat
  | [], acc => some acc
  | c :: cs, acc =>
    match digit_val c with
    | some d => parse_digits_acc cs (acc * 10 + d)
    | none => none

/-- Modelled from the spec: parse a non-empty all-digit character list. -/
def parse_digits : List Char → Option Nat
  | [] => none
  | cs => parse_digits_acc cs 0

/-- Modelled from the spec: parse a decimal natural-number property value;
malformed entries default to absent. -/
def parse_nat_prop (s : String) : Option Nat :=
  parse_digits s.data

/-- Modelled from the spec: parse a decimal integer property value with an
optional leading minus sign; malformed entries default to absent. -/
def parse_int_prop (s : String) : Option Int :=
  match s.data with
  | '-' :: cs => (parse_digits cs).map (fun n => -(n : Int))
  | cs => (parse_digits cs).map (fun n => (n : Int))

/-- Look up a key in the metadata's configuration map. -/
def Metadata.lookup_config (m : Metadata) (key : String) : Option String :=
  m.configuration.lookup key

/-- Modelled from the spec: the Table Properties View (section 6):
parse_table_properties never fails; unrecognized keys are ignored and
malformed entries default to absent. -/
def Metadata.parse_table_properties (m : Metadata) : TableProperties :=
  { enable_change_data_feed :=
      (m.lookup_config "delta.enableChangeDataFeed").bind parse_bool_prop
    enable_deletion_vectors :=
      (m.lookup_config "delta.enableDeletionVectors").bind parse_bool_prop
    append_only :=
      (m.lookup_config "delta.appendOnly").bind parse_bool_prop
    enable_in_commit_timestamps :=
      (m.lookup_config "delta.enableInCommitTimestamps").bind parse_bool_prop
    in_commit_timestamp_enablement_version :=
      (m.lookup_config "delta.inCommitTimestampEnablementVersion").bind parse_nat_prop
    in_commit_timestamp_enablement_timestamp :=
      (m.lookup_config "delta.inCommitTimestampEnablementTimestamp").bind parse_int_prop
    column_mapping_mode :=
      (m.lookup_config "delta.columnMapping.mode").bind parse_column_mapping_mode_prop }

/-- Modelled from the spec: the Column-Mapping Resolver (section 6), a pure
function (protocol, properties) -> ColumnMappingMode; the spec specifies
only its signature, so the mode is resolved from the table-properties
override, defaulting to none. -/
def table_features.column_mapping_mode (_p : Protocol) (props : TableProperties) :
    ColumnMappingMode :=
  props.column_mapping_mode.getD ColumnMappingMode.none

/-- Modelled from the spec: the Feature Registry check (section 6):
ensure_supported_features(declared, supported_list) succeeds exactly when
every declared feature identifier belongs to the supported list. -/
def ensure_supported_features (declared supported : List FeatureId) :
    Except Error Unit :=
  if declared.all (fun f => supported.contains f) then .ok ()
  else .error (.unsupported "found unsupported or unknown features in the protocol")

/-- Modelled from the spec: the writer-feature identifiers the kernel
recognizes (Feature Registry supported list). -/
def kernel_supported_writer_features : List FeatureId :=
  [WriterFeature.appendOnly, WriterFeature.deletionVectors, WriterFeature.invariants,
   WriterFeature.inCommitTimestamp, WriterFeature.timestampNtz,
   WriterFeature.v2Checkpoint, WriterFeature.variantType]

/-- Modelled from the spec: the raw protocol's writer-support check
(section 4.3: the write-support gate delegates to the Feature Registry's
writer-feature check). -/
def Protocol.ensure_write_supported (p : Protocol) : Except Error Unit :=
  ensure_supported_features (p.writer_features.getD []) kernel_supported_writer_features

/-- Modelled from the spec: the column-mapping structural validator
(section 4.1 step 4): if the resolved mode is none, no field may carry
mapping annotations; if the mode is enabled, every field must carry them.
Fails with a descriptive error naming the offending field. -/
def validate_schema_column_mapping (schema : SchemaType) (mode : ColumnMappingMode) :
    Except Error Unit :=
  match mode with
  | ColumnMappingMode.none =>
    match schema.fields.find? (fun f => f.column_mapping_annotated) with
    | some f => .error (.generic ("field " ++ f.name ++
        " carries column mapping annotations but column mapping mode is none"))
    | none => .ok ()
  | _ =>
    match schema.fields.find? (fun f => !f.column_mapping_annotated) with
    | some f => .error (.generic ("field " ++ f.name ++
        " is missing column mapping annotations"))
    | none => .ok ()

/-- Modelled from the spec: the timestamp-without-timezone structural
validator (section 4.1 step 5): if any schema field uses the
timestamp-without-timezone type, both the protocol's reader and writer
feature sets must declare that feature. -/
def validate_timestamp_ntz_feature_support (schema : SchemaType) (protocol : Protocol) :
    Except Error Unit :=
  if schema.fields.any (fun f => f.type == PrimitiveType.timestampNtz) &&
      !(protocol.has_reader_feature ReaderFeature.timestampNtz &&
        protocol.has_writer_feature WriterFeature.timestampNtz) then
    .error (.unsupported
      "Table contains TIMESTAMP_NTZ columns but does not have the required timestampNtz feature in reader and writer features")
  else .ok ()

/-- Modelled from the spec: the variant-type structural validator
(section 4.1 step 6): the same rule as timestamp-ntz, for variant-typed
fields. -/
def validate_variant_type_feature_support (schema : SchemaType) (protocol : Protocol) :
    Except Error Unit :=
  if schema.fields.any (fun f => f.type == PrimitiveType.variant) &&
      !(protocol.has_reader_feature ReaderFeature.variantType &&
        protocol.has_writer_feature WriterFeature.variantType) then
    .error (.unsupported
      "Table contains VARIANT columns but does not have the required variantType feature in reader and writer features")
  else .ok ()

/-- Modelled from the spec: schema_has_invariants (section 6): whether the
schema actually contains an invariant expression on any field. -/
def InvariantChecker.has_invariants (schema : SchemaType) : Bool :=
  schema.fields.any (fun f => f.invariant.isSome)

/-- The validated table configuration (table_configuration.rs): metadata,
protocol, resolved schema, resolved table properties, resolved
column-mapping mode, table root (the Url modelled as its string), and
version. -/
structure TableConfiguration where
  metadata : Metadata
  protocol : Protocol
  schema : SchemaType
  table_properties : TableProperties
  column_mapping_mode : ColumnMappingMode
  table_root : String
  version : Version
deriving DecidableEq, Repr

/-- TableConfiguration::try_new (table_configuration.rs lines 69-97): parse
the schema, derive the table properties and column-mapping mode, then run
the column-mapping, timestamp-ntz and variant structural validators in that
order, short-circuiting on the first failure; the raw protocol
read-support check present in the source is commented out there and hence
absent here. -/
def TableConfiguration.try_new (metadata : Metadata) (protocol : Protocol)
    (table_root : String) (version : Version) : Except Error TableConfiguration :=
  match metadata.parse_schema with
  | .error e => .error e
  | .ok schema =>
    let table_properties := metadata.parse_table_properties
    let cm_mode := table_features.column_mapping_mode protocol table_properties
    match validate_schema_column_mapping schema cm_mode with
    | .error e => .error e
    | .ok () =>
      match validate_timestamp_ntz_feature_support schema protocol with
      | .error e => .error e
      | .ok () =>
        match validate_variant_type_feature_support schema protocol with
        | .error e => .error e
        | .ok () =>
          .ok { metadata := metadata, protocol := protocol, schema := schema,
                table_properties := table_properties, column_mapping_mode := cm_mode,
                table_root := table_root, version := version }

/-- TableConfiguration::try_new_from (lines 99-122): if neither metadata nor
protocol is replaced, return the existing configuration with only the
version replaced; otherwise re-run try_new with the replacements (falling
back to the existing fields) and the existing table root. -/
def TableConfiguration.try_new_from (table_configuration : TableConfiguration)
    (new_metadata : Option Metadata) (new_protocol : Option Protocol)
    (new_version : Version) : Except Error TableConfiguration :=
  if new_metadata.isNone && new_protocol.isNone then
    .ok { table_configuration with version := new_version }
  else
    TableConfiguration.try_new
      (new_metadata.getD table_configuration.metadata)
      (new_protocol.getD table_configuration.protocol)
      table_configuration.table_root
      new_version

/-- The fixed list of reader features compatible with change-data-feed
reading (the CDF_SUPPORTED_READER_FEATURES process-wide constant). -/
def cdf_supported_reader_features : List FeatureId := [ReaderFeature.deletionVectors]

/-- TableConfiguration::is_cdf_read_supported (lines 190-212). -/
def TableConfiguration.is_cdf_read_supported (tc : TableConfiguration) : Bool :=
  let protocol_supported :=
    match tc.protocol.reader_features with
    | some reader_features =>
      if tc.protocol.min_reader_version == 3 then
        (ensure_supported_features reader_features cdf_supported_reader_features).isOk
      else false
    | none => tc.protocol.min_reader_version == 1
  let cdf_enabled := tc.table_properties.enable_change_data_feed.getD false
  let column_mapping_disabled :=
    match tc.table_properties.column_mapping_mode with
    | Option.none => true
    | some ColumnMappingMode.none => true
    | some _ => false
  protocol_supported && cdf_enabled && column_mapping_disabled

/-- TableConfiguration::is_deletion_vector_supported (lines 221-231). -/
def TableConfiguration.is_deletion_vector_supported (tc : TableConfiguration) : Bool :=
  let read_supported := tc.protocol.has_reader_feature ReaderFeature.deletionVectors &&
    tc.protocol.min_reader_version == 3
  let write_supported := tc.protocol.has_writer_feature WriterFeature.deletionVectors &&
    tc.protocol.min_writer_version == 7
  read_supported && write_supported

/-- TableConfiguration::is_deletion_vector_enabled (lines 240-246). -/
def TableConfiguration.is_deletion_vector_enabled (tc : TableConfiguration) : Bool :=
  tc.is_deletion_vector_supported &&
    tc.table_properties.enable_deletion_vectors.getD false

/-- TableConfiguration::is_append_only_supported (lines 252-258). -/
def TableConfiguration.is_append_only_supported (tc : TableConfiguration) : Bool :=
  let v := tc.protocol.min_writer_version
  if v == 7 && tc.protocol.has_writer_feature WriterFeature.appendOnly then true
  else decide (2 ≤ v ∧ v ≤ 6)

/-- TableConfiguration::is_append_only_enabled (lines 261-263). -/
def TableConfiguration.is_append_only_enabled (tc : TableConfiguration) : Bool :=
  tc.is_append_only_supported && tc.table_properties.append_only.getD false

/-- TableConfiguration::is_invariants_supported (lines 266-272): writer
version 7 with the invariants writer feature, or writer version in 2..=6. -/
def TableConfiguration.is_invariants_supported (tc : TableConfiguration) : Bool :=
  let v := tc.protocol.min_writer_version
  if v == 7 && tc.protocol.has_writer_feature WriterFeature.invariants then true
  else decide (2 ≤ v ∧ v ≤ 6)

/-- TableConfiguration::ensure_write_supported (lines 169-183): the raw
protocol writer-feature check, then a rejection when column invariants are
structurally supported and the schema actually contains invariants. -/
def TableConfiguration.ensure_write_supported (tc : TableConfiguration) :
    Except Error Unit :=
  match tc.protocol.ensure_write_supported with
  | .error e => .error e
  | .ok () =>
    if tc.is_invariants_supported && InvariantChecker.has_invariants tc.schema then
      .error (.unsupported "Column invariants are not yet supported")
    else .ok ()

/-- TableConfiguration::is_v2_checkpoint_write_supported (lines 279-287). -/
def TableConfiguration.is_v2_checkpoint_write_supported (tc : TableConfiguration) : Bool :=
  tc.protocol.has_reader_feature ReaderFeature.v2Checkpoint &&
    tc.protocol.has_writer_feature WriterFeature.v2Checkpoint

/-- TableConfiguration::is_in_commit_timestamps_supported (lines 295-300). -/
def TableConfiguration.is_in_commit_timestamps_supported (tc : TableConfiguration) : Bool :=
  tc.protocol.min_writer_version == 7 &&
    tc.protocol.has_writer_feature WriterFeature.inCommitTimestamp

/-- TableConfiguration::is_in_commit_timestamps_enabled (lines 305-311). -/
def TableConfiguration.is_in_commit_timestamps_enabled (tc : TableConfiguration) : Bool :=
  tc.is_in_commit_timestamps_supported &&
    tc.table_properties.enable_in_commit_timestamps.getD false

/-- The error constructor used by in_commit_timestamp_enablement (the
ict_error closure, lines 331-335). -/
def ict_error (err : String) : Error :=
  .generic ("In-commit timestamp enabled, but missing Enablement version or timestamp. "
    ++ err)

/-- TableConfiguration::in_commit_timestamp_enablement (lines 320-344). -/
def TableConfiguration.in_commit_timestamp_enablement (tc : TableConfiguration) :
    Except Error (Option (Version × Int)) :=
  if !tc.is_in_commit_timestamps_enabled then .ok none
  else
    match tc.table_properties.in_commit_timestamp_enablement_version,
        tc.table_properties.in_commit_timestamp_enablement_timestamp with
    | some version, some timestamp => .ok (some (version, timestamp))
    | some _, none => .error (ict_error "Enablement timestamp is not present")
    | none, some _ => .error (ict_error "Enablement version is not present")
    | none, none => .error (ict_error "Enablement version and timestamp are not present.")

/-- A configuration is validly constructed when it is the successful result
of TableConfiguration::try_new on some input. -/
def ValidConfig (tc : TableConfiguration) : Prop :=
  ∃ metadata protocol table_root version,
    TableConfiguration.try_new metadata protocol table_root version = .ok tc

/-- A simple one-column integer schema, matching the schema string used by
the module's own tests. -/
def simple_int_schema : SchemaType :=
  ⟨[⟨"value", PrimitiveType.integer, true, false, none⟩]⟩

/-- Metadata with the simple integer schema and no configuration entries. -/
def plain_metadata : Metadata :=
  { id := "00000000-0000-0000-0000-000000000000"
    schema_string := SchemaString.wellFormed simple_int_schema
    partition_columns := []
    configuration := []
    created_time := none }

/-- A protocol declaring an unrecognized feature identifier on both sides,
as built by the fails_on_unsupported_feature test. -/
def unknown_feature_protocol : Protocol :=
  { min_reader_version := 3, min_writer_version := 7
    reader_features := some ["unknown"], writer_features := some ["unknown"] }

/-- Metadata enabling change data feed and deletion vectors. -/
def dv_metadata : Metadata :=
  { plain_metadata with
    configuration := [("delta.enableChangeDataFeed", "true"),
                      ("delta.enableDeletionVectors", "true")] }

/-- Protocol (3, 7) declaring deletion vectors on both sides. -/
def dv_protocol : Protocol :=
  { min_reader_version := 3, min_writer_version := 7
    reader_features := some [ReaderFeature.deletionVectors]
    writer_features := some [WriterFeature.deletionVectors] }

/-- The configuration try_new builds from dv_metadata and dv_protocol. -/
def dv_config : TableConfiguration :=
  { metadata := dv_metadata, protocol := dv_protocol, schema := simple_int_schema
    table_properties := dv_metadata.parse_table_properties
    column_mapping_mode :=
      table_features.column_mapping_mode dv_protocol dv_metadata.parse_table_properties
    table_root := "file:///", version := 0 }

/-- dv_config is validly constructed. -/
lemma dv_config_valid : ValidConfig dv_config :=
  ⟨dv_metadata, dv_protocol, "file:///", 0, rfl⟩

/-- Metadata enabling in-commit timestamps with both enablement fields. -/
def ict_metadata : Metadata :=
  { plain_metadata with
    configuration := [("delta.enableInCommitTimestamps", "true"),
                      ("delta.inCommitTimestampEnablementVersion", "5"),
                      ("delta.inCommitTimestampEnablementTimestamp", "100")] }

/-- Protocol (3, 7) declaring the in-commit-timestamp writer feature. -/
def ict_protocol : Protocol :=
  { min_reader_version := 3, min_writer_version := 7
    reader_features := some []
    writer_features := some [WriterFeature.inCommitTimestamp] }

/-- The configuration try_new builds from ict_metadata and ict_protocol. -/
def ict_config : TableConfiguration :=
  { metadata := ict_metadata, protocol := ict_protocol, schema := simple_int_schema
    table_properties := ict_metadata.parse_table_properties
    column_mapping_mode :=
      table_features.column_mapping_mode ict_protocol ict_metadata.parse_table_properties
    table_root := "file:///", version := 0 }

/-- ict_config is validly constructed. -/
lemma ict_config_valid : ValidConfig ict_config :=
  ⟨ict_metadata, ict_protocol, "file:///", 0, rfl⟩

/-- Metadata that sets the in-commit-timestamp property and enablement
version while the protocol will not support the feature. -/
def ict_dormant_metadata : Metadata :=
  { plain_metadata with
    configuration := [("delta.enableInCommitTimestamps", "true"),
                      ("delta.inCommitTimestampEnablementVersion", "5")] }

/-- A legacy protocol (reader 1, writer 2) with no feature lists. -/
def legacy_protocol : Protocol :=
  { min_reader_version := 1, min_writer_version := 2
    reader_features := none, writer_features := none }

/-- The configuration try_new builds from ict_dormant_metadata and
legacy_protocol: the in-commit-timestamp feature is not supported there. -/
def ict_dormant_config : TableConfiguration :=
  { metadata := ict_dormant_metadata, protocol := legacy_protocol
    schema := simple_int_schema
    table_properties := ict_dormant_metadata.parse_table_properties
    column_mapping_mode :=
      table_features.column_mapping_mode legacy_protocol
        ict_dormant_metadata.parse_table_properties
    table_root := "file:///", version := 0 }

/-- ict_dormant_config is validly constructed. -/
lemma ict_dormant_config_valid : ValidConfig ict_dormant_config :=
  ⟨ict_dormant_metadata, legacy_protocol, "file:///", 0, rfl⟩

/-- The Feature Registry check succeeds exactly on subsets of the supported
list. -/
lemma ensure_supported_features_isOk (declared supported : List FeatureId) :
    (ensure_supported_features declared supported).isOk = true ↔
      ∀ f ∈ declared, f ∈ supported := by
  unfold ensure_supported_features
  split
  · rename_i h
    simpa [Except.isOk, Except.toBool, List.all_eq_true] using h
  · rename_i h
    simp only [List.all_eq_true] at h
    simp only [Except.isOk, Except.toBool, Bool.false_eq_true, false_iff]
    intro hall
    exact h fun x hx => by simpa using hall x hx

/-- has_reader_feature holds exactly when the reader-feature list is present
and contains the identifier. -/
lemma has_reader_feature_iff (p : Protocol) (f : FeatureId) :
    p.has_reader_feature f = true ↔
      ∃ fs, p.reader_features = some fs ∧ f ∈ fs := by
  unfold Protocol.has_reader_feature
  cases h : p.reader_features <;> simp

/-- has_writer_feature holds exactly when the writer-feature list is present
and contains the identifier. -/
lemma has_writer_feature_iff (p : Protocol) (f : FeatureId) :
    p.has_writer_feature f = true ↔
      ∃ fs, p.writer_features = some fs ∧ f ∈ fs := by
  unfold Protocol.has_writer_feature
  cases h : p.writer_features <;> simp

/-- An optional boolean defaulted to false is true exactly when it is
explicitly set to true. -/
lemma getD_false_eq_true (o : Option Bool) : o.getD false = true ↔ o = some true := by
  cases o <;> simp

/-- try_new stores the given table root unchanged in any configuration it
returns. -/
lemma try_new_table_root (metadata : Metadata) (protocol : Protocol)
    (table_root : String) (version : Version) (cfg : TableConfiguration)
    (h : TableConfiguration.try_new metadata protocol table_root version = .ok cfg) :
    cfg.table_root = table_root := by
  unfold TableConfiguration.try_new at h
  dsimp only at h
  split at h
  · exact Except.noConfusion h
  · split at h
    · exact Except.noConfusion h
    · split at h
      · exact Except.noConfusion h
      · split at h
        · exact Except.noConfusion h
        · injection h with h2
          subst h2
          rfl

/-- C1: for every (metadata, protocol, table_root, version) input,
TableConfiguration::try_new returns a configuration iff every validation
step succeeds, the steps being attempted in order (schema parse,
column-mapping validation against the resolved mode, timestamp-ntz feature
validation, variant feature validation) with the first failure
short-circuiting: the error of the first failing step is returned
unchanged, so no partially-constructed configuration is produced. -/
theorem try_new_validation_pipeline (metadata : Metadata) (protocol : Protocol)
    (table_root : String) (version : Version) :
    ((TableConfiguration.try_new metadata protocol table_root version).isOk = true ↔
      ∃ schema, metadata.parse_schema = .ok schema ∧
        validate_schema_column_mapping schema
          (table_features.column_mapping_mode protocol metadata.parse_table_properties)
          = .ok () ∧
        validate_timestamp_ntz_feature_support schema protocol = .ok () ∧
        validate_variant_type_feature_support schema protocol = .ok ())
    ∧ (∀ e, metadata.parse_schema = .error e →
        TableConfiguration.try_new metadata protocol table_root version = .error e)
    ∧ (∀ schema e, metadata.parse_schema = .ok schema →
        validate_schema_column_mapping schema
          (table_features.column_mapping_mode protocol metadata.parse_table_properties)
          = .error e →
        TableConfiguration.try_new metadata protocol table_root version = .error e)
    ∧ (∀ schema e, metadata.parse_schema = .ok schema →
        validate_schema_column_mapping schema
          (table_features.column_mapping_mode protocol metadata.parse_table_properties)
          = .ok () →
        validate_timestamp_ntz_feature_support schema protocol = .error e →
        TableConfiguration.try_new metadata protocol table_root version = .error e)
    ∧ (∀ schema e, metadata.parse_schema = .ok schema →
        validate_schema_column_mapping schema
          (table_features.column_mapping_mode protocol metadata.parse_table_properties)
          = .ok () →
        validate_timestamp_ntz_feature_support schema protocol = .ok () →
        validate_variant_type_feature_support schema protocol = .error e →
        TableConfiguration.try_new metadata protocol table_root version = .error e) := by
  rcases hs : metadata.parse_schema with e0 | s0
  case error =>
    refine ⟨?_, ?_, ?_, ?_, ?_⟩ <;>
      · intros
        simp_all [TableConfiguration.try_new, Except.isOk, Except.toBool]
  case ok =>
    rcases hcm : validate_schema_column_mapping s0
        (table_features.column_mapping_mode protocol metadata.parse_table_properties)
        with e1 | u1
    case error =>
      refine ⟨?_, ?_, ?_, ?_, ?_⟩ <;>
        · intros
          simp_all [TableConfiguration.try_new, Except.isOk, Except.toBool]
    case ok =>
      cases u1
      rcases hntz : validate_timestamp_ntz_feature_support s0 protocol with e2 | u2
      case error =>
        refine ⟨?_, ?_, ?_, ?_, ?_⟩ <;>
          · intros
            simp_all [TableConfiguration.try_new, Except.isOk, Except.toBool]
      case ok =>
        cases u2
        rcases hvar : validate_variant_type_feature_support s0 protocol with e3 | u3
        case error =>
          refine ⟨?_, ?_, ?_, ?_, ?_⟩ <;>
            · intros
              simp_all [TableConfiguration.try_new, Except.isOk, Except.toBool]
        case ok =>
          cases u3
          refine ⟨?_, ?_, ?_, ?_, ?_⟩ <;>
            · intros
              simp_all [TableConfiguration.try_new, Except.isOk, Except.toBool]

/-- C1 witness: the pipeline characterization applied to the concrete
deletion-vector metadata and protocol, whose four validation steps all
pass, shows construction succeeds there. -/
theorem try_new_validation_pipeline_witness :
    (TableConfiguration.try_new dv_metadata dv_protocol "file:///" 0).isOk = true :=
  (try_new_validation_pipeline dv_metadata dv_protocol "file:///" 0).1.mpr
    ⟨simple_int_schema, rfl, rfl, rfl, rfl⟩

/-- C2 (code bug evidence): with the raw-protocol read-support check
commented out in try_new (table_configuration.rs line 75), construction
succeeds on a protocol declaring the unrecognized feature identifier
"unknown" on both the reader and writer side, although the module's own
fails_on_unsupported_feature test demands that this construction fail. -/
theorem try_new_accepts_unknown_feature_protocol :
    (TableConfiguration.try_new plain_metadata unknown_feature_protocol
      "file:///" 0).isOk = true := by
  rfl

/-- C3: for every validly constructed configuration, is_cdf_read_supported
holds iff the protocol is CDF-compatible (reader version 3 with a declared
reader-feature list contained in the deletion-vectors singleton, or reader
version 1 with no reader-feature list), the change-data-feed table property
is set to true, and the column-mapping-mode table property is unset or
none. -/
theorem is_cdf_read_supported_characterization (tc : TableConfiguration)
    (hvalid : ValidConfig tc) :
    tc.is_cdf_read_supported = true ↔
      ((tc.protocol.min_reader_version = 3 ∧
          ∃ rf, tc.protocol.reader_features = some rf ∧
            ∀ f ∈ rf, f = ReaderFeature.deletionVectors) ∨
        (tc.protocol.min_reader_version = 1 ∧ tc.protocol.reader_features = none))
      ∧ tc.table_properties.enable_change_data_feed = some true
      ∧ (tc.table_properties.column_mapping_mode = none ∨
          tc.table_properties.column_mapping_mode = some ColumnMappingMode.none) := by
  clear hvalid
  unfold TableConfiguration.is_cdf_read_supported
  rcases hrf : tc.protocol.reader_features with _ | rf
  · rcases hcdf : tc.table_properties.enable_change_data_feed with _ | b
    · simp [hrf, hcdf]
    · rcases hcm : tc.table_properties.column_mapping_mode with _ | mode
      · cases b <;> simp [hrf, hcdf, hcm]
      · cases b <;> cases mode <;> simp [hrf, hcdf, hcm]
  · by_cases h3 : tc.protocol.min_reader_version = 3
    · rcases hcdf : tc.table_properties.enable_change_data_feed with _ | b
      · simp [hrf, hcdf, h3]
      · rcases hcm : tc.table_properties.column_mapping_mode with _ | mode
        · cases b <;>
            simp [hrf, hcdf, hcm, h3, ensure_supported_features_isOk,
              cdf_supported_reader_features]
        · cases b <;> cases mode <;>
            simp [hrf, hcdf, hcm, h3, ensure_supported_features_isOk,
              cdf_supported_reader_features]
    · simp [hrf, h3]

/-- C3 witness: the characterization applied to the concrete deletion-vector
configuration, whose protocol is (3, [deletionVectors]), whose
change-data-feed property is true and whose column-mapping property is
unset, shows CDF reads are supported there. -/
theorem is_cdf_read_supported_characterization_witness :
    dv_config.is_cdf_read_supported = true :=
  (is_cdf_read_supported_characterization dv_config dv_config_valid).mpr
    ⟨Or.inl ⟨rfl, [ReaderFeature.deletionVectors], rfl, by decide⟩, rfl, Or.inl rfl⟩

/-- C4: for every validly constructed configuration,
in_commit_timestamp_enablement returns no value and no error when in-commit
timestamps are not enabled; returns exactly the (version, timestamp) pair
when enabled with both enablement properties set; and when enabled with at
least one property missing returns the error distinguishing the missing
field(s) (timestamp only, version only, or both), the three messages being
pairwise distinct. -/
theorem in_commit_timestamp_enablement_cases (tc : TableConfiguration)
    (hvalid : ValidConfig tc) :
    (tc.is_in_commit_timestamps_enabled = false →
      tc.in_commit_timestamp_enablement = .ok none)
    ∧ (tc.is_in_commit_timestamps_enabled = true →
        (∀ v ts,
          tc.table_properties.in_commit_timestamp_enablement_version = some v →
          tc.table_properties.in_commit_timestamp_enablement_timestamp = some ts →
          tc.in_commit_timestamp_enablement = .ok (some (v, ts)))
        ∧ (∀ v,
            tc.table_properties.in_commit_timestamp_enablement_version = some v →
            tc.table_properties.in_commit_timestamp_enablement_timestamp = none →
            tc.in_commit_timestamp_enablement =
              .error (ict_error "Enablement timestamp is not present"))
        ∧ (∀ ts,
            tc.table_properties.in_commit_timestamp_enablement_version = none →
            tc.table_properties.in_commit_timestamp_enablement_timestamp = some ts →
            tc.in_commit_timestamp_enablement =
              .error (ict_error "Enablement version is not present"))
        ∧ (tc.table_properties.in_commit_timestamp_enablement_version = none →
            tc.table_properties.in_commit_timestamp_enablement_timestamp = none →
            tc.in_commit_timestamp_enablement =
              .error (ict_error "Enablement version and timestamp are not present.")))
    ∧ (ict_error "Enablement timestamp is not present" ≠
        ict_error "Enablement version is not present"
      ∧ ict_error "Enablement timestamp is not present" ≠
        ict_error "Enablement version and timestamp are not present."
      ∧ ict_error "Enablement version is not present" ≠
        ict_error "Enablement version and timestamp are not present.") := by
  clear hvalid
  refine ⟨?_, ?_, by decide⟩
  · intro h
    simp [TableConfiguration.in_commit_timestamp_enablement, h]
  · intro h
    refine ⟨?_, ?_, ?_, ?_⟩ <;>
      · intros
        simp_all [TableConfiguration.in_commit_timestamp_enablement]

/-- C4 witness: the case analysis applied to the concrete enabled
configuration whose enablement version is 5 and enablement timestamp is
100 yields exactly that pair. -/
theorem in_commit_timestamp_enablement_cases_witness :
    ict_config.in_commit_timestamp_enablement = .ok (some (5, 100)) :=
  ((in_commit_timestamp_enablement_cases ict_config ict_config_valid).2.1
    rfl).1 5 100 rfl rfl

/-- C5: for every valid configuration and every version, try_new_from with
no replacement metadata and no replacement protocol succeeds, and the
resulting configuration carries the new version with schema, protocol,
metadata, table properties, column-mapping mode and table root identical to
the original; the result is produced as a shallow copy, with none of the
construction-time validators re-run. -/
theorem try_new_from_version_only_update (tc : TableConfiguration)
    (hvalid : ValidConfig tc) (v : Version) :
    (TableConfiguration.try_new_from tc none none v).isOk = true
    ∧ ∀ cfg, TableConfiguration.try_new_from tc none none v = .ok cfg →
        cfg.version = v ∧ cfg.schema = tc.schema ∧ cfg.protocol = tc.protocol ∧
        cfg.metadata = tc.metadata ∧ cfg.table_properties = tc.table_properties ∧
        cfg.column_mapping_mode = tc.column_mapping_mode ∧
        cfg.table_root = tc.table_root := by
  clear hvalid
  constructor
  · rfl
  · intro cfg h
    have h2 : ({ tc with version := v } : TableConfiguration) = cfg := by
      injection h
    subst h2
    exact ⟨rfl, rfl, rfl, rfl, rfl, rfl, rfl⟩

/-- C5 witness: the version-only update applied to the concrete
deletion-vector configuration at version 1 succeeds. -/
theorem try_new_from_version_only_update_witness :
    (TableConfiguration.try_new_from dv_config none none 1).isOk = true :=
  (try_new_from_version_only_update dv_config dv_config_valid 1).1

/-- C6: for every validly constructed configuration, deletion vectors are
supported iff the protocol has minimum reader version exactly 3 with
deletionVectors among its reader features and minimum writer version
exactly 7 with deletionVectors among its writer features; and deletion
vectors are enabled iff they are supported and the enableDeletionVectors
table property is set to true. -/
theorem deletion_vector_support_characterization (tc : TableConfiguration)
    (hvalid : ValidConfig tc) :
    (tc.is_deletion_vector_supported = true ↔
      tc.protocol.min_reader_version = 3 ∧
      (∃ rf, tc.protocol.reader_features = some rf ∧
        ReaderFeature.deletionVectors ∈ rf) ∧
      tc.protocol.min_writer_version = 7 ∧
      (∃ wf, tc.protocol.writer_features = some wf ∧
        WriterFeature.deletionVectors ∈ wf))
    ∧ (tc.is_deletion_vector_enabled = true ↔
        tc.is_deletion_vector_supported = true ∧
        tc.table_properties.enable_deletion_vectors = some true) := by
  clear hvalid
  constructor
  · unfold TableConfiguration.is_deletion_vector_supported
    simp only [Bool.and_eq_true, beq_iff_eq, has_reader_feature_iff,
      has_writer_feature_iff]
    tauto
  · unfold TableConfiguration.is_deletion_vector_enabled
    simp only [Bool.and_eq_true, getD_false_eq_true]

/-- C6 witness: the characterization applied to the concrete deletion-vector
configuration shows deletion vectors are both supported and enabled
there. -/
theorem deletion_vector_support_characterization_witness :
    dv_config.is_deletion_vector_enabled = true :=
  (deletion_vector_support_characterization dv_config dv_config_valid).2.mpr
    ⟨(deletion_vector_support_characterization dv_config dv_config_valid).1.mpr
      ⟨rfl, ⟨[ReaderFeature.deletionVectors], rfl, by decide⟩,
        rfl, ⟨[WriterFeature.deletionVectors], rfl, by decide⟩⟩, rfl⟩

/-- C7: for every validly constructed configuration whose raw protocol
passes the writer-feature support check, ensure_write_supported returns the
explicit not-yet-supported error exactly when column invariants are
structurally supported (writer version 7 with the invariants writer
feature, or writer version between 2 and 6) and the schema actually
contains an invariant expression on some field; in every other such case it
returns success. -/
theorem ensure_write_supported_invariants_gate (tc : TableConfiguration)
    (hvalid : ValidConfig tc)
    (hw : tc.protocol.ensure_write_supported = .ok ()) :
    (tc.ensure_write_supported =
        .error (.unsupported "Column invariants are not yet supported") ↔
      tc.is_invariants_supported = true ∧
        InvariantChecker.has_invariants tc.schema = true)
    ∧ (tc.ensure_write_supported = .ok () ↔
        ¬(tc.is_invariants_supported = true ∧
          InvariantChecker.has_invariants tc.schema = true))
    ∧ (tc.is_invariants_supported = true ↔
        (tc.protocol.min_writer_version = 7 ∧
          tc.protocol.has_writer_feature WriterFeature.invariants = true) ∨
        (2 ≤ tc.protocol.min_writer_version ∧ tc.protocol.min_writer_version ≤ 6)) := by
  refine ⟨?_, ?_, ?_⟩
  · unfold TableConfiguration.ensure_write_supported
    rw [hw]
    by_cases h : tc.is_invariants_supported = true ∧
        InvariantChecker.has_invariants tc.schema = true
    · simp [h.1, h.2]
    · rcases Decidable.not_and_iff_or_not.mp h with h1 | h1 <;>
        simp_all [Bool.not_eq_true]
  · unfold TableConfiguration.ensure_write_supported
    rw [hw]
    by_cases h : tc.is_invariants_supported = true ∧
        InvariantChecker.has_invariants tc.schema = true
    · simp [h.1, h.2]
    · rcases Decidable.not_and_iff_or_not.mp h with h1 | h1 <;>
        simp_all [Bool.not_eq_true]
  · unfold TableConfiguration.is_invariants_supported
    by_cases h7 : tc.protocol.min_writer_version = 7
    · by_cases hf : tc.protocol.has_writer_feature WriterFeature.invariants = true <;>
        simp_all
    · simp_all

/-- C7 witness: the gate applied to the concrete deletion-vector
configuration, whose writer features pass the registry check and which is
on writer version 7 without the invariants feature, returns success. -/
theorem ensure_write_supported_invariants_gate_witness :
    dv_config.ensure_write_supported = .ok () :=
  (ensure_write_supported_invariants_gate dv_config dv_config_valid rfl).2.1.mpr
    (by decide)

/-- C8: for every configuration, deletion-vector enablement implies
deletion-vector support. -/
theorem deletion_vector_enabled_implies_supported (tc : TableConfiguration)
    (h : tc.is_deletion_vector_enabled = true) :
    tc.is_deletion_vector_supported = true := by
  have h2 := h
  unfold TableConfiguration.is_deletion_vector_enabled at h2
  exact (Bool.and_eq_true _ _ |>.mp h2).1

/-- C8 witness: the implication applied to the concrete deletion-vector
configuration, on which enablement holds. -/
theorem deletion_vector_enabled_implies_supported_witness :
    dv_config.is_deletion_vector_supported = true :=
  deletion_vector_enabled_implies_supported dv_config (by decide)

/-- C9: whenever try_new_from returns a configuration, that configuration's
table root equals the original configuration's table root, whatever the
optional replacement metadata and protocol and the new version are. -/
theorem try_new_from_preserves_table_root (tc : TableConfiguration)
    (new_metadata : Option Metadata) (new_protocol : Option Protocol)
    (new_version : Version) (cfg : TableConfiguration)
    (h : TableConfiguration.try_new_from tc new_metadata new_protocol new_version
      = .ok cfg) :
    cfg.table_root = tc.table_root := by
  unfold TableConfiguration.try_new_from at h
  split at h
  · injection h with h2
    subst h2
    rfl
  · exact try_new_table_root _ _ _ _ _ h

/-- C9 witness: a version-only incremental update of the concrete
deletion-vector configuration keeps its table root. -/
theorem try_new_from_preserves_table_root_witness :
    ({ dv_config with version := 1 } : TableConfiguration).table_root =
      dv_config.table_root :=
  try_new_from_preserves_table_root dv_config none none 1 _ rfl

/-- C10: for every validly constructed configuration on which
is_in_commit_timestamps_enabled is false, in_commit_timestamp_enablement
returns success with no value and never an error, even when the
enablement-version or enablement-timestamp properties are present. -/
theorem ict_enablement_absent_when_disabled (tc : TableConfiguration)
    (hvalid : ValidConfig tc)
    (h : tc.is_in_commit_timestamps_enabled = false) :
    tc.in_commit_timestamp_enablement = .ok none := by
  simp [TableConfiguration.in_commit_timestamp_enablement, h]

/-- C10 witness: the concrete configuration whose table properties set the
in-commit-timestamp property and an enablement version, but whose legacy
protocol does not support the feature, yields success with no value. -/
theorem ict_enablement_absent_when_disabled_witness :
    ict_dormant_config.in_commit_timestamp_enablement = .ok none :=
  ict_enablement_absent_when_disabled ict_dormant_config ict_dormant_config_valid rfl
